import Mathlib

/-!
Shallow embedding of `src/main.py`, a single-endpoint FastAPI service that
downloads a document, converts it to one image, sends it to a remote
generative-model API and parses the returned text as JSON.

Modelling conventions:
* Python strings are Lean `String`; the handful of string operations the
  source uses (`in` substring test, `str.replace`, `str.strip`,
  `str.lower`) are implemented below as structurally recursive functions
  over `List Char` so that every theorem evaluates by kernel reduction.
* Network and filesystem effects are passed in explicitly: each request
  handler run receives an `Env` describing the outcome of every external
  call (download, PDF rasterization, image open, model listing, model
  generation, JSON parsing) and a list of files representing the scratch
  directory.  `json.loads` is modelled as the oracle
  `jloads : String -> Option Json` (`none` = the Python call raises).
* Exceptions are `Except String`; a FastAPI `HTTPException` raised inside
  the handler is caught by the handler's own `except Exception` clause, so
  only its detail string matters here.
-/

namespace BillService

/-- ASCII lowercase of one character; Python `str.lower` restricted to
ASCII, which is all the content-type comparison in `download_file` needs. -/
def lowerChar (c : Char) : Char :=
  if 'A' ≤ c ∧ c ≤ 'Z' then Char.ofNat (c.toNat + 32) else c

/-- Python `s.lower()` (ASCII fragment). -/
def lowerStr (s : String) : String := String.mk (s.data.map lowerChar)

/-- Does `pat` occur at the head of the second list? -/
def lead : List Char → List Char → Bool
  | [], _ => true
  | _ :: _, [] => false
  | p :: ps, c :: cs => p == c && lead ps cs

/-- Does `pat` occur contiguously anywhere in the second list?
This is Python's `pat in hay` on strings. -/
def hasSeq (pat : List Char) : List Char → Bool
  | [] => pat.isEmpty
  | c :: cs => lead pat (c :: cs) || hasSeq pat cs

/-- Python `pat in hay` (substring test). -/
def strHas (hay pat : String) : Bool := hasSeq pat.data hay.data

/-- If `pat` is a prefix of the list, return the remainder. -/
def skipLead : List Char → List Char → Option (List Char)
  | [], s => some s
  | _ :: _, [] => none
  | p :: ps, c :: cs => if p == c then skipLead ps cs else none

/-- Replace every occurrence of `pat` by `rep`, scanning left to right.
The `fuel` argument only makes the recursion structural: every step either
consumes one character (`none` branch) or, since the patterns used in this
development are nonempty, at least one character (`some` branch), so fuel
equal to the input length never runs out. -/
def replFuel (pat rep : List Char) : Nat → List Char → List Char
  | _, [] => []
  | 0, s => s
  | Nat.succ fuel, c :: cs =>
    match skipLead pat (c :: cs) with
    | some rest => rep ++ replFuel pat rep fuel rest
    | none => c :: replFuel pat rep fuel cs

/-- Python `s.replace(pat, rep)` (replace all occurrences). -/
def replaceAllStr (s pat rep : String) : String :=
  String.mk (replFuel pat.data rep.data s.data.length s.data)

/-- Whitespace characters stripped by Python `str.strip` (ASCII fragment). -/
def wsChar (c : Char) : Bool := c == ' ' || c == '\t' || c == '\n' || c == '\r'

/-- Python `s.strip()`: drop leading and trailing whitespace. -/
def trimList (cs : List Char) : List Char :=
  ((cs.dropWhile wsChar).reverse.dropWhile wsChar).reverse

/-- Python `s.strip()` on strings. -/
def trimStr (s : String) : String := String.mk (trimList s.data)

/-! ### `download_file` (main.py lines 21-37)

`download_file` streams the URL body to a `NamedTemporaryFile(delete=False)`
and returns `(tmp.name, ext)`.  Any exception is re-raised as an
`HTTPException(400, "Download failed: ...")`.  Its external behaviour is
captured by a `DownloadOutcome`: the request may fail before the scratch
file is created (`requests.get` / `raise_for_status` raising), fail while
streaming chunks after the file already exists on disk (`iter_content` or
`tmp.write` raising inside the `with` block, main.py lines 32-34), or
succeed. -/

/-- Extension inference of `download_file` (main.py lines 27-30):
`ext = ".jpg"`, overridden to `".pdf"` when `"pdf"` occurs in the lowercased
content-type header, else to `".png"` when `"png"` occurs in it. -/
def downloadExt (contentType : String) : String :=
  let ct := lowerStr contentType
  if strHas ct "pdf" then ".pdf"
  else if strHas ct "png" then ".png"
  else ".jpg"

/-- Outcome of the HTTP fetch performed by `download_file`. -/
inductive DownloadOutcome where
  | netFail (msg : String)
  | writeFail (path : String) (msg : String)
  | ok (path : String) (contentType : String)
deriving DecidableEq

/-! ### `get_best_available_model` (main.py lines 46-107) -/

/-- One entry of the provider's model catalog (`data['models']`).
`noName` stands for a dict without a `'name'` key, on which `m['name']`
(main.py line 67) raises `KeyError`; `entry` carries `m['name']` and
`m.get('supportedGenerationMethods', [])`. -/
inductive RawEntry where
  | noName
  | entry (name : String) (methods : List String)
deriving DecidableEq

/-- Does reaching this entry in the discovery loop raise? -/
def isNoName : RawEntry → Bool
  | .noName => true
  | .entry _ _ => false

/-- Risk classification of main.py line 80:
`is_risky = 'exp' in name or 'preview' in name or '002' in name`. -/
def isRisky (name : String) : Bool :=
  strHas name "exp" || strHas name "preview" || strHas name "002"

/-- One iteration of the discovery loop (main.py lines 66-83): strip the
`"models/"` prefix via `str.replace`, skip entries without
`'generateContent'` in their methods, skip names containing `'embedding'`,
and keep the rest tagged with their risk flag. -/
def candidateOf : RawEntry → Option (String × Bool)
  | .noName => none
  | .entry name0 methods =>
    let name := replaceAllStr name0 "models/" ""
    if methods.contains "generateContent" then
      if strHas name "embedding" then none
      else some (name, isRisky name)
    else none

/-- The `valid_candidates` list built by the discovery loop. -/
def validCandidates (raws : List RawEntry) : List (String × Bool) :=
  raws.filterMap candidateOf

/-- The two selection loops of main.py lines 90-99: return the first
candidate whose name contains `pat` and whose risk flag is false. -/
def firstSafeWith (pat : String) : List (String × Bool) → Option String
  | [] => none
  | (n, r) :: rest =>
    if strHas n pat && !r then some n else firstSafeWith pat rest

/-- Selection logic of main.py lines 88-103: first safe `'flash'` model,
else first safe `'pro'` model, else `valid_candidates[0][0]`. -/
def selectModel (cands : List (String × Bool)) : Option String :=
  match firstSafeWith "flash" cands with
  | some n => some n
  | none =>
    match firstSafeWith "pro" cands with
    | some n => some n
    | none => cands.head?.map Prod.fst

/-- Body of the model-listing response: `response.json()` may raise
(`badJson`) or yield `data.get('models', [])` (`json`; a missing
`'models'` key is the empty list). -/
inductive ListingBody where
  | badJson
  | json (raws : List RawEntry)
deriving DecidableEq

/-- Outcome of `requests.get` on the model-listing endpoint:
the call itself may raise, or return a status code and a body. -/
inductive ListingOutcome where
  | raisesNet (msg : String)
  | status (code : Nat) (body : ListingBody)
deriving DecidableEq

/-- `get_best_available_model` (main.py lines 46-107).  A non-200 status
returns the hardcoded fallback (lines 56-58); every exception inside the
`try` — `requests.get` raising, `response.json()` raising, `m['name']`
raising `KeyError` on a malformed entry, or the explicit
`raise Exception("No text-generation models found...")` when
`valid_candidates` is empty — is caught at lines 105-107 and also returns
the fallback. -/
def get_best_available_model : ListingOutcome → String
  | .raisesNet _ => "gemini-1.5-flash"
  | .status code body =>
    if code ≠ 200 then "gemini-1.5-flash"
    else
      match body with
      | .badJson => "gemini-1.5-flash"
      | .json raws =>
        if raws.any isNoName then "gemini-1.5-flash"
        else
          match validCandidates raws with
          | [] => "gemini-1.5-flash"
          | c :: cs => (selectModel (c :: cs)).getD c.1

/-! ### JSON values and the generation response -/

/-- JSON values, the result type of `json.loads` (numbers as integers;
none of the verified behaviour depends on fractional literals). -/
inductive Json where
  | null
  | bool (b : Bool)
  | num (n : Int)
  | str (s : String)
  | arr (elems : List Json)
  | obj (fields : List (String × Json))

/-- The `usageMetadata` object of the generation response; each counter is
read with `usage.get(..., 0)` (main.py lines 190-194), so fields are
optional. -/
structure UsageMetadata where
  totalTokenCount : Option Nat
  promptTokenCount : Option Nat
  candidatesTokenCount : Option Nat
deriving DecidableEq

/-- One element of `raw_response['candidates']`.  `partsTexts` lists the
`'text'` field of each element of `candidate['content']['parts']`; a
candidate whose `'content'`, `'parts'` or first `'text'` is missing is
modelled by an empty (or truncated) list — indexing it raises, landing in
the same `except` branch as an empty candidate list. -/
structure Candidate where
  partsTexts : List String
deriving DecidableEq

/-- The decoded generation response body.  `candidates` is
`raw_response.get('candidates', [])`; `usageMetadata` is `none` when the
key is absent (`raw_response.get('usageMetadata', {})`). -/
structure GeminiResponse where
  candidates : List Candidate
  usageMetadata : Option UsageMetadata
deriving DecidableEq

/-! ### The request handler `extract_bill_data` (main.py lines 154-215) -/

/-- Outcome of `convert_from_path` (main.py line 165): raise, or return a
list of page images. -/
inductive ConvertOutcome (Image : Type) where
  | raises (msg : String)
  | pages (imgs : List Image)

/-- Outcome of `PIL.Image.open` (main.py line 170): raise, or return an
image. -/
inductive OpenOutcome (Image : Type) where
  | raises (msg : String)
  | ok (img : Image)

/-- The externally determined behaviour of one request: the outcome of
each network / filesystem / library call the handler makes.  `Image` is
abstract — the handler only ever passes images to `image_to_base64`,
modelled by `encode`.  `jloads` is the `json.loads` oracle: `none` means
the Python call raises on that string.  `genStatus`, `genText` and
`genJson` describe the `requests.post` of `call_gemini_auto`
(status code, `response.text`, and the result of `response.json()`). -/
structure Env (Image : Type) where
  download : DownloadOutcome
  convert : ConvertOutcome Image
  openImg : OpenOutcome Image
  listing : ListingOutcome
  genStatus : Nat
  genText : String
  genJson : Except String GeminiResponse
  jloads : String → Option Json
  encode : Image → String

/-- `call_gemini_auto` (main.py lines 109-152): discover one model name,
send one `requests.post`, raise
`Exception(f"Google API Error ({model_name}): {response.text}")` on any
non-200 status (lines 149-150), otherwise return `response.json()`
(which may itself raise, modelled by `genJson` being an `error`). -/
def call_gemini_auto {Image : Type} (env : Env Image) : Except String GeminiResponse :=
  let model_name := get_best_available_model env.listing
  if env.genStatus ≠ 200 then
    .error ("Google API Error (" ++ model_name ++ "): " ++ env.genText)
  else
    env.genJson

/-- The model names `call_gemini_auto` attempts: it issues exactly one
`requests.post` (main.py line 147), to the single discovered model. -/
def attemptedModels {Image : Type} (env : Env Image) : List String :=
  [get_best_available_model env.listing]

/-- Markdown-fence cleanup of main.py line 186:
`text_part.replace("```json", "").replace("```", "").strip()`. -/
def cleanText (t : String) : String :=
  trimStr (replaceAllStr (replaceAllStr t "```json" "") "```" "")

/-- The fixed empty default data structure of main.py lines 196 and 210:
`{"pagewise_line_items": [], "total_item_count": 0}` (braces elided here:
it is the two-field object with an empty list and a zero count). -/
def emptyResult : Json :=
  .obj [("pagewise_line_items", .arr []), ("total_item_count", .num 0)]

/-- The token-usage record of the response body. -/
structure TokenUsage where
  total_tokens : Nat
  input_tokens : Nat
  output_tokens : Nat
deriving DecidableEq

/-- All-zero token usage (main.py lines 197 and 209). -/
def zeroUsage : TokenUsage := ⟨0, 0, 0⟩

/-- Token usage read from the response's usage metadata with zero
defaults (main.py lines 189-194). -/
def usageOf (u : Option UsageMetadata) : TokenUsage where
  total_tokens := (u.bind UsageMetadata.totalTokenCount).getD 0
  input_tokens := (u.bind UsageMetadata.promptTokenCount).getD 0
  output_tokens := (u.bind UsageMetadata.candidatesTokenCount).getD 0

/-- The parse step, main.py lines 181-197 (the inner `try`): take the
first candidate (`if not candidates: raise`), its first part text, clean
the fences, `json.loads` it, and read the usage counters; if anything in
that block raises, both `data` and `token_usage` fall back to the empty
defaults. -/
def parseStep (jloads : String → Option Json) (raw : GeminiResponse) :
    Json × TokenUsage :=
  let attempt : Option (Json × TokenUsage) := do
    let c ← raw.candidates.head?
    let t ← c.partsTexts.head?
    let d ← jloads (cleanText t)
    pure (d, usageOf raw.usageMetadata)
  attempt.getD (emptyResult, zeroUsage)

/-- The JSON body returned by the endpoint. -/
structure Response where
  is_success : Bool
  token_usage : TokenUsage
  data : Json
  error : Option String

/-- The failure body built by the outer `except` (main.py lines 205-212). -/
def failResponse (e : String) : Response :=
  { is_success := false, token_usage := zeroUsage, data := emptyResult
  , error := some e }

/-- Image acquisition, main.py lines 162-172: for a `.pdf` extension
rasterize and take the first page (an exception becomes the
`"PDF Error. Is Poppler installed?"` HTTPException detail; an empty page
list leaves `target_image` as `None`, hitting the
`raise Exception("No image found.")` check), otherwise `Image.open`. -/
def imageOf {Image : Type} (env : Env Image) (ext : String) : Except String Image :=
  if ext = ".pdf" then
    match env.convert with
    | .raises _ => .error "PDF Error. Is Poppler installed?"
    | .pages imgs =>
      match imgs.head? with
      | some i => .ok i
      | none => .error "No image found."
  else
    match env.openImg with
    | .raises m => .error m
    | .ok i => .ok i

/-- The `finally` block, main.py lines 213-215:
`if temp_path and os.path.exists(temp_path): os.remove(temp_path)`.
`temp_path` is `None` unless `download_file` returned. -/
def cleanupFs (tempPath : Option String) (fs : List String) : List String :=
  match tempPath with
  | none => fs
  | some p => if p ∈ fs then fs.erase p else fs

/-- The result of one handler run: the response body, the final scratch
directory contents, and the base64 payload sent to the model (if the
`requests.post` was reached). -/
structure RunResult where
  response : Response
  fs : List String
  sent : Option String

/-- The request handler `extract_bill_data` (main.py lines 154-215), as a
function of the environment and the initial scratch-directory contents.
A failing download raises `HTTPException(400, "Download failed: ...")`
from inside `download_file`; when the failure happens while streaming
chunks the scratch file already exists but its name never reaches the
handler, so the `finally` block cannot remove it.  Every exception
(including `HTTPException`s, which subclass `Exception`) is caught by the
outer `except` and becomes a `failResponse`. -/
def extract_bill_data {Image : Type} (env : Env Image) (fs0 : List String) :
    RunResult :=
  match env.download with
  | .netFail msg =>
    { response := failResponse ("Download failed: " ++ msg)
    , fs := cleanupFs none fs0, sent := none }
  | .writeFail p msg =>
    { response := failResponse ("Download failed: " ++ msg)
    , fs := cleanupFs none (p :: fs0), sent := none }
  | .ok p ct =>
    let ext := downloadExt ct
    let fs1 := p :: fs0
    match imageOf env ext with
    | .error e =>
      { response := failResponse e, fs := cleanupFs (some p) fs1, sent := none }
    | .ok img =>
      let b64 := env.encode img
      match call_gemini_auto env with
      | .error e =>
        { response := failResponse e, fs := cleanupFs (some p) fs1
        , sent := some b64 }
      | .ok raw =>
        let pr := parseStep env.jloads raw
        { response :=
            { is_success := true, token_usage := pr.2, data := pr.1
            , error := none }
        , fs := cleanupFs (some p) fs1, sent := some b64 }

/-! ### Concrete environments used by witnesses and counterexamples.
Images are represented by `Nat` tags. -/

/-- A small model catalog with two safe candidates (a flash and a pro). -/
def demoCatalog : List RawEntry :=
  [.entry "models/gemini-1.5-flash" ["generateContent"],
   .entry "models/gemini-1.5-pro" ["generateContent"]]

/-- A generation response whose only part text is prose, not JSON
(Python `json.loads` raises `JSONDecodeError` on it, hence the `jloads`
oracle of `envBadJsonText` maps every string to `none`). -/
def rawProse : GeminiResponse :=
  { candidates := [{ partsTexts := ["Here is the bill summary."] }]
  , usageMetadata := some ⟨some 10, some 7, some 3⟩ }

/-- A request in which everything succeeds except that the model's
returned text is not parseable as JSON. -/
def envBadJsonText : Env Nat :=
  { download := .ok "/tmp/f2.jpg" "image/jpeg"
  , convert := .pages []
  , openImg := .ok 2
  , listing := .raisesNet "unused"
  , genStatus := 200
  , genText := ""
  , genJson := .ok rawProse
  , jloads := fun _ => none
  , encode := fun _ => "b64data" }

/-- A request whose generation call is rate-limited (HTTP 429) while a
second, never-attempted candidate exists in the catalog. -/
def envRateLimited : Env Nat :=
  { download := .ok "/tmp/f1.jpg" "image/jpeg"
  , convert := .pages []
  , openImg := .ok 1
  , listing := .status 200 (.json demoCatalog)
  , genStatus := 429
  , genText := "RESOURCE_EXHAUSTED"
  , genJson := .ok ⟨[], none⟩
  , jloads := fun _ => none
  , encode := fun _ => "b64data" }

/-- A request whose download fails before the scratch file is created. -/
def envNetFail : Env Nat :=
  { download := .netFail "404 Client Error"
  , convert := .pages []
  , openImg := .raises "unused"
  , listing := .raisesNet "unused"
  , genStatus := 0
  , genText := ""
  , genJson := .error "unused"
  , jloads := fun _ => none
  , encode := fun _ => "" }

/-- A request whose download fails while streaming chunks, after the
scratch file was created (main.py lines 32-34 raising inside the `with`). -/
def envWriteFail : Env Nat :=
  { download := .writeFail "/tmp/leak.pdf" "connection reset by peer"
  , convert := .pages []
  , openImg := .raises "unused"
  , listing := .raisesNet "unused"
  , genStatus := 0
  , genText := ""
  , genJson := .error "unused"
  , jloads := fun _ => none
  , encode := fun _ => "" }

/-- An extracted-data value as parsed from a well-formed model reply. -/
def billJson : Json :=
  .obj [("pagewise_line_items",
          .arr [.obj [("page_no", .str "1"),
                      ("page_type", .str "Bill Detail"),
                      ("bill_items", .arr [])]]),
        ("total_item_count", .num 2)]

/-- A generation response with one well-formed JSON part; its
`promptTokenCount` counter is absent to exercise the zero default. -/
def rawGood : GeminiResponse :=
  { candidates := [{ partsTexts := ["json body of the bill"] }]
  , usageMetadata := some ⟨some 120, none, some 20⟩ }

/-- A fully successful request: download, open, discovery, generation and
parse all succeed. -/
def envGood : Env Nat :=
  { download := .ok "/tmp/f3.png" "image/png"
  , convert := .pages []
  , openImg := .ok 3
  , listing := .status 200 (.json demoCatalog)
  , genStatus := 200
  , genText := ""
  , genJson := .ok rawGood
  , jloads := fun _ => some billJson
  , encode := fun _ => "imgdata" }

/-- A PDF request: the download yields a `.pdf` scratch file and
rasterization returns two pages. -/
def envPdf : Env Nat :=
  { download := .ok "/tmp/f4.pdf" "application/pdf"
  , convert := .pages [7, 8]
  , openImg := .raises "unused"
  , listing := .status 200 (.json demoCatalog)
  , genStatus := 200
  , genText := ""
  , genJson := .ok rawGood
  , jloads := fun _ => some billJson
  , encode := fun i => "page-" ++ toString i }

/-! ### Specification-side definitions (written from the spec's words, to
be compared with the source translations above) -/

/-- Written from the words of claim C5: the first non-deprioritized
candidate whose name contains "flash", else the first non-deprioritized
candidate whose name contains "pro", else the first remaining candidate
in catalog order. -/
def selectModelSpec (cands : List (String × Bool)) : Option String :=
  match (cands.find? fun c => strHas c.1 "flash" && !c.2).map Prod.fst with
  | some n => some n
  | none =>
    match (cands.find? fun c => strHas c.1 "pro" && !c.2).map Prod.fst with
    | some n => some n
    | none => cands.head?.map Prod.fst

/-- Does `s` end with `pat`? (used only by the spec-side rule below). -/
def endsWithL (s pat : String) : Bool := lead pat.data.reverse s.data.reverse

/-- Written from the words of claim C8: extension from the content-type
header (pdf gives .pdf, png gives .png), with the URL suffix as a
fallback, defaulting to JPEG when neither matches. -/
def downloadExtSpecC8 (contentType url : String) : String :=
  let ct := lowerStr contentType
  if strHas ct "pdf" then ".pdf"
  else if strHas ct "png" then ".png"
  else if endsWithL (lowerStr url) ".pdf" then ".pdf"
  else if endsWithL (lowerStr url) ".png" then ".png"
  else ".jpg"

/-- Claim C5's filter rule in Boolean form: a catalog `entry` is kept as
a candidate exactly when it supports content generation and its cleaned
name is not an embedding model. -/
def keepRule : RawEntry → Bool
  | .noName => true
  | .entry name0 methods =>
    (candidateOf (.entry name0 methods)).isSome ==
      (methods.contains "generateContent" &&
        !(strHas (replaceAllStr name0 "models/" "") "embedding"))

/-- Claim C5's deprioritization rule in Boolean form: every candidate
whose name contains "exp" or "preview" carries a true risk flag. -/
def riskMarkRule (c : String × Bool) : Bool :=
  !(strHas c.1 "exp" || strHas c.1 "preview") || c.2

/-- The failure conditions of claim C9 on the model-listing call: the
call raises, the status is non-200, the body is undecodable, an entry
cannot be processed (missing `'name'`), or no valid candidate remains. -/
def listingFallback : ListingOutcome → Prop
  | .raisesNet _ => True
  | .status code body =>
    code ≠ 200 ∨ body = .badJson ∨
      ∃ raws, body = .json raws ∧
        (raws.any isNoName = true ∨ validCandidates raws = [])

/-- A catalog with a safe pro model, a risky experimental flash model, a
safe flash model and an embedding model (used as a witness input). -/
def catalogMixed : List RawEntry :=
  [.entry "models/gemini-1.5-pro" ["generateContent"],
   .entry "models/gemini-2.0-flash-exp" ["generateContent"],
   .entry "models/gemini-1.5-flash" ["generateContent"],
   .entry "models/text-embedding-004" ["generateContent", "embedContent"]]

/-- The request reached the generation call: the download returned a path
and the image stage succeeded (main.py lines 159-175). -/
def reachedGen {Image : Type} (env : Env Image) : Prop :=
  ∃ p ct img, env.download = .ok p ct ∧ imageOf env (downloadExt ct) = .ok img

/-! ### Shared lemmas -/

lemma keepRule_true (e : RawEntry) : keepRule e = true := by
  cases e with
  | noName => rfl
  | entry name0 methods =>
    unfold keepRule candidateOf
    by_cases hm : "generateContent" ∈ methods
    · by_cases he : strHas (replaceAllStr name0 "models/" "") "embedding" = true
      · simp [hm, he]
      · simp [hm, he]
    · simp [hm]

lemma mem_validCandidates_risky (raws : List RawEntry) (n : String) (r : Bool)
    (h : (n, r) ∈ validCandidates raws) : r = isRisky n := by
  rw [validCandidates, List.mem_filterMap] at h
  obtain ⟨raw, _, hc⟩ := h
  cases raw with
  | noName => simp [candidateOf] at hc
  | entry n0 ms =>
    by_cases hm : "generateContent" ∈ ms
    · by_cases he : strHas (replaceAllStr n0 "models/" "") "embedding" = true
      · simp [candidateOf, hm, he] at hc
      · simp [candidateOf, hm, he] at hc
        obtain ⟨h1, h2⟩ := hc
        rw [← h1, ← h2]
    · simp [candidateOf, hm] at hc

lemma firstSafeWith_eq_find (pat : String) (l : List (String × Bool)) :
    firstSafeWith pat l = (l.find? fun c => strHas c.1 pat && !c.2).map Prod.fst := by
  induction l with
  | nil => rfl
  | cons a l ih =>
    obtain ⟨n, r⟩ := a
    by_cases h : (strHas n pat && !r) = true
    · simp [firstSafeWith, List.find?, h]
    · simp [firstSafeWith, List.find?, h, ih]

/-! ### Claim theorems -/

/-- C8 (counterexample): the claim says the URL suffix is used as a
fallback when the content-type matches neither pdf nor png; but
`download_file` (main.py lines 27-30) computes the extension from the
content-type header alone, so for content-type `"text/html"` and a URL
ending in `".png"` the code yields `".jpg"` while the claimed rule
yields `".png"`. -/
theorem ext_infer_counterexample :
    downloadExt "text/html" = ".jpg" ∧
    downloadExtSpecC8 "text/html" "http://host/bill.png" = ".png" ∧
    downloadExt "text/html" ≠ downloadExtSpecC8 "text/html" "http://host/bill.png" := by
  refine ⟨rfl, rfl, ?_⟩
  decide

/-- C8 (amended): the scratch file's extension is inferred from the
content-type header alone — `".pdf"` exactly when the lowercased header
contains `"pdf"`, else `".png"` exactly when it contains `"png"`, and
`".jpg"` otherwise; the URL is never consulted. -/
theorem ext_infer_content_type_only (ct : String) :
    (downloadExt ct = ".pdf" ↔ strHas (lowerStr ct) "pdf" = true) ∧
    (downloadExt ct = ".png" ↔
      (strHas (lowerStr ct) "pdf" = false ∧ strHas (lowerStr ct) "png" = true)) ∧
    (downloadExt ct = ".jpg" ↔
      (strHas (lowerStr ct) "pdf" = false ∧ strHas (lowerStr ct) "png" = false)) := by
  cases h1 : strHas (lowerStr ct) "pdf" with
  | true => simp [downloadExt, h1]
  | false =>
    cases h2 : strHas (lowerStr ct) "png" with
    | true => simp [downloadExt, h1, h2]
    | false => simp [downloadExt, h1, h2]

/-- C9: whenever the model-listing call raises, returns a non-200 status,
returns a body that cannot be decoded or processed, or yields no valid
candidates, `get_best_available_model` falls back to the hardcoded name
`"gemini-1.5-flash"` instead of propagating the failure. -/
theorem discovery_fallback (o : ListingOutcome) (h : listingFallback o) :
    get_best_available_model o = "gemini-1.5-flash" := by
  cases o with
  | raisesNet m => rfl
  | status code body =>
    rcases h with hcode | hbody | ⟨raws, hb, hrest⟩
    · simp [get_best_available_model, hcode]
    · subst hbody
      by_cases h200 : code = 200
      · subst h200; rfl
      · simp [get_best_available_model, h200]
    · subst hb
      by_cases h200 : code = 200
      · subst h200
        unfold get_best_available_model
        rcases hrest with hany | hempty
        · simp only [hany]
          rfl
        · by_cases hn : raws.any isNoName = true
          · simp only [hn]
            rfl
          · have hn' : raws.any isNoName = false := by
              cases h : raws.any isNoName
              · rfl
              · exact absurd h hn
            simp only [hn', hempty]
            rfl
      · simp [get_best_available_model, h200]

/-- C9 (witness): a 500 status with an undecodable body falls back. -/
theorem discovery_fallback_witness :
    get_best_available_model (.status 500 .badJson) = "gemini-1.5-flash" :=
  discovery_fallback (.status 500 .badJson) (Or.inr (Or.inl rfl))

/-- C10: a candidate kept by model discovery carries a true risk
(deprioritization) flag exactly when its cleaned name contains the
substring "exp", "preview" or "002". -/
theorem risky_exactly_exp_preview_002 (raws : List RawEntry) (n : String) (r : Bool)
    (h : (n, r) ∈ validCandidates raws) :
    r = true ↔
      (strHas n "exp" = true ∨ strHas n "preview" = true ∨ strHas n "002" = true) := by
  rw [mem_validCandidates_risky raws n r h]
  simp [isRisky, Bool.or_eq_true, or_assoc]

/-- C10 (witness): the catalog entry `models/gemini-1.5-pro-002` is kept
and deprioritized, via the "002" substring alone. -/
theorem risky_002_witness :
    true = true ↔
      (strHas "gemini-1.5-pro-002" "exp" = true ∨
       strHas "gemini-1.5-pro-002" "preview" = true ∨
       strHas "gemini-1.5-pro-002" "002" = true) :=
  risky_exactly_exp_preview_002
    [.entry "models/gemini-1.5-pro-002" ["generateContent"]]
    "gemini-1.5-pro-002" true (by decide)

/-- C5: model discovery keeps exactly the catalog entries supporting
content generation whose cleaned name is not an embedding model
(`keepRule`), marks every experimental/preview entry as deprioritized
(`riskMarkRule`), and — on a clean 200 listing with at least one valid
candidate — selects exactly the model given by the spec's preference
order: first non-deprioritized "flash" candidate, else first
non-deprioritized "pro" candidate, else the first remaining candidate. -/
theorem model_selection_follows_spec (raws : List RawEntry)
    (hclean : raws.any isNoName = false)
    (hne : validCandidates raws ≠ []) :
    raws.all keepRule = true ∧
    (validCandidates raws).all riskMarkRule = true ∧
    selectModelSpec (validCandidates raws) =
      some (get_best_available_model (.status 200 (.json raws))) := by
  refine ⟨?_, ?_, ?_⟩
  · rw [List.all_eq_true]
    intro e _
    exact keepRule_true e
  · rw [List.all_eq_true]
    intro c hc
    obtain ⟨n, r⟩ := c
    have hr := mem_validCandidates_risky raws n r hc
    subst hr
    unfold riskMarkRule isRisky
    cases strHas n "exp" <;> cases strHas n "preview" <;> simp
  · obtain ⟨c, cs, hcands⟩ : ∃ c cs, validCandidates raws = c :: cs := by
      cases hv : validCandidates raws with
      | nil => exact absurd hv hne
      | cons c cs => exact ⟨c, cs, rfl⟩
    have hmodel : get_best_available_model (.status 200 (.json raws)) =
        (selectModel (c :: cs)).getD c.1 := by
      unfold get_best_available_model
      simp [hclean, hcands]
    rw [hmodel, hcands]
    unfold selectModel selectModelSpec
    rw [firstSafeWith_eq_find, firstSafeWith_eq_find]
    rcases hf : (List.find? (fun c => strHas c.1 "flash" && !c.2) (c :: cs)).map Prod.fst
      with _ | n1
    · rcases hp : (List.find? (fun c => strHas c.1 "pro" && !c.2) (c :: cs)).map Prod.fst
        with _ | n2
      · simp [hf, hp]
      · simp [hf, hp]
    · simp [hf]

/-- C5 (witness): on a catalog holding a safe pro model, a risky
experimental flash model, a safe flash model and an embedding model, all
three parts hold; the selected model is the safe flash one. -/
theorem model_selection_witness :
    catalogMixed.all keepRule = true ∧
    (validCandidates catalogMixed).all riskMarkRule = true ∧
    selectModelSpec (validCandidates catalogMixed) =
      some (get_best_available_model (.status 200 (.json catalogMixed))) :=
  model_selection_follows_spec catalogMixed (by decide) (by decide)

/-- C1 (counterexample): the claim says a model reply whose text is not
parseable as JSON yields `is_success: false` with an error string; but
the inner `except` of main.py lines 195-197 swallows the parse failure,
so such a request returns `is_success: true` with no error string (and
the empty default data with zero token counts).  In `envBadJsonText`
every step succeeds except `json.loads`, whose oracle returns `none` on
the prose text `"Here is the bill summary."` (Python raises
`JSONDecodeError` there). -/
theorem parse_failure_not_failure :
    (extract_bill_data envBadJsonText []).response.is_success = true ∧
    (extract_bill_data envBadJsonText []).response.error = none ∧
    (extract_bill_data envBadJsonText []).response.data = emptyResult ∧
    (extract_bill_data envBadJsonText []).response.token_usage = zeroUsage :=
  ⟨rfl, rfl, rfl, rfl⟩

/-- C1 (amended): for every request in which the URL download fails or
the attempted model call fails (non-200 status or undecodable body), the
response has `is_success` false, an error string, the empty default data
structure and zero token counts.  (A model reply whose text is not
parseable as JSON instead yields `is_success` true with the empty
default data and zero token counts.) -/
theorem downstream_failure_shape {Image : Type} (env : Env Image) (fs0 : List String)
    (h : (∃ m, env.download = .netFail m) ∨
         (∃ p m, env.download = .writeFail p m) ∨
         (reachedGen env ∧ ∃ e, call_gemini_auto env = .error e)) :
    (extract_bill_data env fs0).response.is_success = false ∧
    ((extract_bill_data env fs0).response.error).isSome = true ∧
    (extract_bill_data env fs0).response.data = emptyResult ∧
    (extract_bill_data env fs0).response.token_usage = zeroUsage := by
  rcases h with ⟨m, hd⟩ | ⟨p, m, hd⟩ | ⟨⟨p, ct, img, hd, hi⟩, e, hcall⟩
  · simp [extract_bill_data, hd, failResponse]
  · simp [extract_bill_data, hd, failResponse]
  · simp [extract_bill_data, hd, hi, hcall, failResponse]

/-- C1 (witness): a failing download produces the failure shape. -/
theorem downstream_failure_witness :
    (extract_bill_data envNetFail []).response.is_success = false ∧
    ((extract_bill_data envNetFail []).response.error).isSome = true ∧
    (extract_bill_data envNetFail []).response.data = emptyResult ∧
    (extract_bill_data envNetFail []).response.token_usage = zeroUsage :=
  downstream_failure_shape envNetFail [] (Or.inl ⟨"404 Client Error", rfl⟩)

/-- C2 (counterexample): the claim says a rate-limit status triggers a
retry with the next candidate; but `call_gemini_auto` (main.py lines
147-152) sends exactly one request and raises on any non-200 status.  In
`envRateLimited` the status is 429 and the catalog holds two valid
candidates, yet only the first discovered model is attempted and the
call fails terminally. -/
theorem gen_call_no_retry_counterexample :
    envRateLimited.genStatus = 429 ∧
    2 ≤ (validCandidates demoCatalog).length ∧
    attemptedModels envRateLimited = ["gemini-1.5-flash"] ∧
    call_gemini_auto envRateLimited =
      .error "Google API Error (gemini-1.5-flash): RESOURCE_EXHAUSTED" :=
  ⟨rfl, by decide, rfl, rfl⟩

/-- C2 (amended): when the single generation request returns a non-success
HTTP status, `call_gemini_auto` fails terminally at once with an error
naming the one discovered model; exactly one candidate is attempted, with
no retry for any status (rate-limit and not-found included). -/
theorem gen_call_terminal_no_retry {Image : Type} (env : Env Image)
    (h : env.genStatus ≠ 200) :
    call_gemini_auto env =
      .error ("Google API Error (" ++ get_best_available_model env.listing
                ++ "): " ++ env.genText) ∧
    attemptedModels env = [get_best_available_model env.listing] := by
  refine ⟨?_, rfl⟩
  simp [call_gemini_auto, h]

/-- C2 (witness): the amended behaviour at the concrete 429 request. -/
theorem gen_call_terminal_witness :
    call_gemini_auto envRateLimited =
      .error ("Google API Error ("
                ++ get_best_available_model envRateLimited.listing
                ++ "): " ++ envRateLimited.genText) ∧
    attemptedModels envRateLimited =
      [get_best_available_model envRateLimited.listing] :=
  gen_call_terminal_no_retry envRateLimited (by decide)

/-- C3 (counterexample): the claim says any scratch file created while
downloading is removed on every exit path; but when the download fails
while streaming chunks (main.py lines 32-34 raising inside the `with`
block), the already-created scratch file's name never reaches the
handler, `temp_path` stays `None`, and the `finally` block removes
nothing: the file is still on disk when the response is returned. -/
theorem scratch_leak_on_stream_failure :
    (extract_bill_data envWriteFail []).fs = ["/tmp/leak.pdf"] ∧
    (extract_bill_data envWriteFail []).fs ≠ [] ∧
    (extract_bill_data envWriteFail []).response.is_success = false :=
  ⟨rfl, by decide, rfl⟩

/-- C3 (amended): on every request whose download does not fail
mid-stream — i.e. the download either fails before the scratch file is
created or completes and hands its path to the handler — the scratch
directory is returned to its initial state on every exit path (success,
conversion failure, model failure, parse failure): any scratch file
created for the request is removed before the response is returned. -/
theorem scratch_file_removed {Image : Type} (env : Env Image) (fs0 : List String)
    (h : ∀ p m, env.download ≠ .writeFail p m) :
    (extract_bill_data env fs0).fs = fs0 := by
  rcases hd : env.download with m | ⟨p, m⟩ | ⟨p, ct⟩
  · simp [extract_bill_data, hd, cleanupFs]
  · exact absurd hd (h p m)
  · have hc : cleanupFs (some p) (p :: fs0) = fs0 := by
      simp [cleanupFs]
    rcases h1 : imageOf env (downloadExt ct) with e | img
    · simp [extract_bill_data, hd, h1, hc]
    · rcases h2 : call_gemini_auto env with e | raw
      · simp [extract_bill_data, hd, h1, h2, hc]
      · simp [extract_bill_data, hd, h1, h2, hc]

/-- C3 (witness): a fully successful request leaves the scratch
directory as it found it. -/
theorem scratch_file_removed_witness :
    (extract_bill_data envGood []).fs = [] :=
  scratch_file_removed envGood [] (by intro p m hcontra; simp [envGood] at hcontra)

/-- C4: the handler parses exactly `cleanText t` — the first part text
with the substrings "```json" and "```" removed and whitespace stripped
(main.py line 186) — and when that parse fails the request does not
fail: the response is successful, with the fixed empty-result structure
(empty pagewise_line_items, total_item_count 0) and zero token counts. -/
theorem parse_failure_defaults {Image : Type} (env : Env Image) (fs0 : List String)
    (p ct : String) (img : Image) (raw : GeminiResponse)
    (c : Candidate) (cs : List Candidate) (t : String) (ts : List String)
    (hd : env.download = .ok p ct)
    (hi : imageOf env (downloadExt ct) = .ok img)
    (hcall : call_gemini_auto env = .ok raw)
    (hc : raw.candidates = c :: cs)
    (ht : c.partsTexts = t :: ts)
    (hp : env.jloads (cleanText t) = none) :
    (extract_bill_data env fs0).response =
      { is_success := true, token_usage := zeroUsage, data := emptyResult
      , error := none } := by
  simp [extract_bill_data, hd, hi, hcall, parseStep, hc, ht, hp]

/-- C4 (witness): the parse-failure defaults at the concrete prose
reply. -/
theorem parse_failure_defaults_witness :
    (extract_bill_data envBadJsonText []).response =
      { is_success := true, token_usage := zeroUsage, data := emptyResult
      , error := none } :=
  parse_failure_defaults envBadJsonText [] "/tmp/f2.jpg" "image/jpeg" 2 rawProse
    ⟨["Here is the bill summary."]⟩ [] "Here is the bill summary." []
    rfl rfl rfl rfl rfl rfl

/-- C6: when the remote call succeeds (status 200, decodable body) and
the fence-stripped first part text parses as JSON value `v`, the
response is successful, its `data` is `v` verbatim, and its token-usage
counts are read from the response's usage metadata with zero defaults
for absent counters. -/
theorem success_response_verbatim {Image : Type} (env : Env Image) (fs0 : List String)
    (p ct : String) (img : Image) (raw : GeminiResponse)
    (c : Candidate) (cs : List Candidate) (t : String) (ts : List String) (v : Json)
    (hd : env.download = .ok p ct)
    (hi : imageOf env (downloadExt ct) = .ok img)
    (hs : env.genStatus = 200)
    (hj : env.genJson = .ok raw)
    (hc : raw.candidates = c :: cs)
    (ht : c.partsTexts = t :: ts)
    (hp : env.jloads (cleanText t) = some v) :
    (extract_bill_data env fs0).response =
      { is_success := true
      , token_usage :=
          { total_tokens :=
              ((raw.usageMetadata).bind UsageMetadata.totalTokenCount).getD 0
          , input_tokens :=
              ((raw.usageMetadata).bind UsageMetadata.promptTokenCount).getD 0
          , output_tokens :=
              ((raw.usageMetadata).bind UsageMetadata.candidatesTokenCount).getD 0 }
      , data := v
      , error := none } := by
  have hcall : call_gemini_auto env = .ok raw := by
    simp [call_gemini_auto, hs, hj]
  simp [extract_bill_data, hd, hi, hcall, parseStep, hc, ht, hp, usageOf]

/-- C6 (witness): the verbatim success response at the concrete
well-formed reply (whose `promptTokenCount` is absent, exercising the
zero default). -/
theorem success_response_witness :
    (extract_bill_data envGood []).response =
      { is_success := true
      , token_usage :=
          { total_tokens :=
              ((rawGood.usageMetadata).bind UsageMetadata.totalTokenCount).getD 0
          , input_tokens :=
              ((rawGood.usageMetadata).bind UsageMetadata.promptTokenCount).getD 0
          , output_tokens :=
              ((rawGood.usageMetadata).bind UsageMetadata.candidatesTokenCount).getD 0 }
      , data := billJson
      , error := none } :=
  success_response_verbatim envGood [] "/tmp/f3.png" "image/png" 3 rawGood
    ⟨["json body of the bill"]⟩ [] "json body of the bill" [] billJson
    rfl rfl rfl rfl rfl rfl rfl

/-- C7: for a downloaded document whose inferred extension is `.pdf`,
the rasterized first page is the image encoded and forwarded to the
remote model, and the later pages are never consulted: the whole run is
unchanged if they are dropped. -/
theorem pdf_first_page_only {Image : Type} (env : Env Image) (fs0 : List String)
    (p ct : String) (i : Image) (rest : List Image)
    (hd : env.download = .ok p ct)
    (he : downloadExt ct = ".pdf")
    (hc : env.convert = .pages (i :: rest)) :
    (extract_bill_data env fs0).sent = some (env.encode i) ∧
    extract_bill_data env fs0 =
      extract_bill_data { env with convert := .pages [i] } fs0 := by
  have hi : imageOf env (downloadExt ct) = .ok i := by
    simp [imageOf, he, hc]
  set env' : Env Image := { env with convert := ConvertOutcome.pages [i] }
    with henv'
  have hd' : env'.download = .ok p ct := hd
  have hi' : imageOf env' (downloadExt ct) = .ok i := by
    simp [henv', imageOf, he]
  have hcall' : call_gemini_auto env' = call_gemini_auto env := rfl
  have henc : env'.encode = env.encode := rfl
  have hjl : env'.jloads = env.jloads := rfl
  constructor
  · rcases h2 : call_gemini_auto env with e | raw <;>
      simp [extract_bill_data, hd, hi, h2]
  · rcases h2 : call_gemini_auto env with e | raw
    · have h2' : call_gemini_auto env' = .error e := hcall'.trans h2
      simp [extract_bill_data, hd, hd', hi, hi', h2, h2', henc]
    · have h2' : call_gemini_auto env' = .ok raw := hcall'.trans h2
      simp [extract_bill_data, hd, hd', hi, hi', h2, h2', henc, hjl]

/-- C7 (witness): the two-page PDF request sends the first page's
encoding and coincides with the one-page run. -/
theorem pdf_first_page_witness :
    (extract_bill_data envPdf []).sent = some (envPdf.encode 7) ∧
    extract_bill_data envPdf [] =
      extract_bill_data { envPdf with convert := .pages [7] } [] :=
  pdf_first_page_only envPdf [] "/tmp/f4.pdf" "application/pdf" 7 [8]
    rfl rfl rfl

end BillService
